import Mathlib

/-!
Verification development for the CoinHealth repository.

The repository is a Next.js application with three API routes and a dashboard:
  - `src/unnamed/part_001` : the Twitter-follower scraping route (`processCryptoData`,
    a hardcoded `actualTwitterFollowers` table and a market-cap based random fallback)
    and the CoinGecko listing route (hardcoded `coinGeckoData`, ten entries);
  - `src/unnamed/part_002` : the `/api/followers` result store (module-level
    `scrapedCryptoData` array, `sampleData` seed snapshot, GET/POST handlers);
  - `src/app/page.tsx` : the dashboard, including `parseFollowers` (the
    normalization used when sorting by followers) and the `runFullScraper`
    trigger guarded by a disabled button while `scraping` is set.

JavaScript numbers are modelled as exact rationals (ℚ); every concrete value the
claims touch is evaluated identically in IEEE doubles and in ℚ.  JavaScript's
`Math.random()` is modelled by threading an explicit list of draws, and
`new Date().toISOString()` by a `now : String` parameter.
-/

namespace CoinHealth

/-- JavaScript truthiness of an optional string field: `null`/`undefined` and the
empty string are falsy, every other string is truthy. -/
def jsTruthy : Option String → Bool
  | none => false
  | some s => !(s = "")

/-! ## Follower-count normalization (`parseFollowers`, src/app/page.tsx lines 147-153)

```js
const parseFollowers = (followers: string): number => {
  if (!followers || followers === "0") return 0
  const num = Number.parseFloat(followers.replace(/[,]/g, ""))
  if (followers.includes("M") || followers.includes("m")) return num * 1000000
  if (followers.includes("K") || followers.includes("k")) return num * 1000
  return num
}
```

`Number.parseFloat` is modelled on its decimal-literal core: an optional sign,
integer digits, an optional fraction, with any trailing garbage ignored, and
`NaN` (here `none`) when no digit is found.  (The follower strings this program
manipulates never carry leading whitespace, exponents or `Infinity`, so those
branches of the ECMAScript grammar are irrelevant to every claim.) -/

/-- Numeric value of a list of decimal digit characters (most significant first). -/
def digitsVal (l : List Char) : Nat :=
  l.foldl (fun a c => a * 10 + (c.toNat - '0'.toNat)) 0

/-- Longest prefix of decimal digits, together with the rest of the input. -/
def takeDigits : List Char → List Char × List Char
  | [] => ([], [])
  | c :: cs =>
    if c.isDigit then (c :: (takeDigits cs).1, (takeDigits cs).2)
    else ([], c :: cs)

/-- Optional leading sign of a numeric literal. -/
def splitSign (l : List Char) : ℚ × List Char :=
  match l with
  | [] => (1, [])
  | c :: t => if c = '-' then (-1, t) else if c = '+' then (1, t) else (1, c :: t)

/-- Fraction digits of a numeric literal: the digits following a leading dot. -/
def fracDigits (r : List Char) : List Char :=
  match r with
  | [] => []
  | c :: t => if c = '.' then (takeDigits t).1 else []

/-- Model of `Number.parseFloat` on its decimal-literal core; `none` is `NaN`. -/
def jsParseFloat (s : String) : Option ℚ :=
  let l := (splitSign s.toList).2
  let sg := (splitSign s.toList).1
  let ip := (takeDigits l).1
  let fp := fracDigits (takeDigits l).2
  if ip = [] ∧ fp = [] then none
  else some (sg * ((digitsVal ip : ℚ) + (digitsVal fp : ℚ) / (10 : ℚ) ^ fp.length))

/-- `followers.replace(/[,]/g, "")`: drop every comma. -/
def stripCommas (s : String) : String :=
  String.mk (s.toList.filter (fun c => c != ','))

/-- `s.includes(c)` for a single character. -/
def includesChar (s : String) (c : Char) : Bool :=
  s.toList.any (fun x => x == c)

/-- The dashboard's follower-count normalization used for sorting
(src/app/page.tsx lines 147-153); `none` is JavaScript's `NaN`. -/
def parseFollowers (followers : String) : Option ℚ :=
  if followers = "" ∨ followers = "0" then some 0
  else
    let num := jsParseFloat (stripCommas followers)
    if includesChar followers 'M' || includesChar followers 'm' then
      num.map (fun q => q * 1000000)
    else if includesChar followers 'K' || includesChar followers 'k' then
      num.map (fun q => q * 1000)
    else num

/-- Exact value of a decimal string split as integer part and fraction part. -/
def decimalVal (ip fp : List Char) : ℚ :=
  (digitsVal ip : ℚ) + (digitsVal fp : ℚ) / (10 : ℚ) ^ fp.length

/-! ### Helper lemmas about the parsing pipeline -/

/-- The head of the list, if any, is not a decimal digit. -/
def headNotDigit : List Char → Prop
  | [] => True
  | c :: _ => c.isDigit = false

/-- The head of the list, if any, is not a decimal point. -/
def headNotDot : List Char → Prop
  | [] => True
  | c :: _ => c ≠ '.'

theorem toList_mk (l : List Char) : (String.mk l).toList = l := rfl

theorem takeDigits_append (l rest : List Char) (hl : ∀ c ∈ l, c.isDigit = true)
    (hr : headNotDigit rest) : takeDigits (l ++ rest) = (l, rest) := by
  induction l with
  | nil =>
    cases rest with
    | nil => rfl
    | cons c cs =>
      simp only [headNotDigit] at hr
      simp [takeDigits, hr]
  | cons c cs ih =>
    have hc : c.isDigit = true := hl c (List.mem_cons_self c cs)
    have ih2 := ih (fun x hx => hl x (List.mem_cons_of_mem c hx))
    simp [takeDigits, hc, ih2]

theorem splitSign_digit (c : Char) (t : List Char) (h : c.isDigit = true) :
    splitSign (c :: t) = (1, c :: t) := by
  have h1 : c ≠ '-' := by rintro rfl; exact absurd h (by decide)
  have h2 : c ≠ '+' := by rintro rfl; exact absurd h (by decide)
  simp [splitSign, h1, h2]

theorem fracDigits_not_dot (rest : List Char) (h : headNotDot rest) : fracDigits rest = [] := by
  cases rest with
  | nil => rfl
  | cons c cs =>
    simp only [headNotDot] at h
    simp [fracDigits, h]

theorem fracDigits_dot (t : List Char) : fracDigits ('.' :: t) = (takeDigits t).1 := by
  simp [fracDigits]

theorem jsParseFloat_digits (ip rest : List Char) (h0 : ip ≠ [])
    (h1 : ∀ c ∈ ip, c.isDigit = true) (h2 : headNotDigit rest) (h3 : headNotDot rest) :
    jsParseFloat (String.mk (ip ++ rest)) = some (digitsVal ip) := by
  obtain ⟨c, cs, rfl⟩ := List.exists_cons_of_ne_nil h0
  have hsp : splitSign ((c :: cs) ++ rest) = (1, (c :: cs) ++ rest) := by
    rw [List.cons_append]
    exact splitSign_digit c (cs ++ rest) (h1 c (List.mem_cons_self c cs))
  have htk := takeDigits_append (c :: cs) rest h1 h2
  have hfr := fracDigits_not_dot rest h3
  unfold jsParseFloat
  rw [toList_mk, hsp]
  simp only [htk, hfr]
  rw [if_neg (by simp)]
  simp [digitsVal]

theorem jsParseFloat_decimal (ip fp rest : List Char) (h0 : ip ≠ [])
    (h1 : ∀ c ∈ ip, c.isDigit = true) (h2 : ∀ c ∈ fp, c.isDigit = true)
    (h3 : headNotDigit rest) :
    jsParseFloat (String.mk (ip ++ '.' :: (fp ++ rest))) = some (decimalVal ip fp) := by
  obtain ⟨c, cs, rfl⟩ := List.exists_cons_of_ne_nil h0
  have hsp : splitSign ((c :: cs) ++ '.' :: (fp ++ rest)) = (1, (c :: cs) ++ '.' :: (fp ++ rest)) := by
    rw [List.cons_append]
    exact splitSign_digit c _ (h1 c (List.mem_cons_self c cs))
  have htk : takeDigits ((c :: cs) ++ '.' :: (fp ++ rest)) = (c :: cs, '.' :: (fp ++ rest)) :=
    takeDigits_append (c :: cs) _ h1 (by simp [headNotDigit])
  have htk2 := takeDigits_append fp rest h2 h3
  unfold jsParseFloat
  rw [toList_mk, hsp]
  simp only [htk, fracDigits_dot, htk2]
  rw [if_neg (by simp)]
  simp [decimalVal]

theorem any_beq_eq_false (l : List Char) (c : Char) (h : ∀ x ∈ l, x ≠ c) :
    l.any (fun x => x == c) = false := by
  by_contra hany
  rw [Bool.not_eq_false, List.any_eq_true] at hany
  obtain ⟨x, hx, hxc⟩ := hany
  exact h x hx (by rwa [beq_iff_eq] at hxc)

theorem ne_of_digit_of_not_digit (x c : Char) (hx : x.isDigit = true) (hc : c.isDigit = false) :
    x ≠ c := by
  rintro rfl
  rw [hx] at hc
  exact Bool.noConfusion hc

theorem stripCommas_id (l : List Char) (h : ∀ c ∈ l, c ≠ ',') :
    stripCommas (String.mk l) = String.mk l := by
  unfold stripCommas
  rw [toList_mk, List.filter_eq_self.mpr]
  intro c hc
  simpa using h c hc

/-- The two branch tests of `parseFollowers` exposed, once the zero/empty guard is ruled out. -/
theorem parseFollowers_branches (l : List Char) (h0 : String.mk l ≠ "") (h1 : String.mk l ≠ "0") :
    parseFollowers (String.mk l) =
      (if l.any (fun x => x == 'M') || l.any (fun x => x == 'm') then
         (jsParseFloat (stripCommas (String.mk l))).map (fun q => q * 1000000)
       else if l.any (fun x => x == 'K') || l.any (fun x => x == 'k') then
         (jsParseFloat (stripCommas (String.mk l))).map (fun q => q * 1000)
       else jsParseFloat (stripCommas (String.mk l))) := by
  unfold parseFollowers includesChar
  rw [if_neg (by rintro (h | h); exacts [h0 h, h1 h]), toList_mk]

/-- Core evaluation of `parseFollowers` on a comma-free string whose numeric prefix parses. -/
theorem parseFollowers_core (l : List Char) (v : ℚ) (h0 : l ≠ []) (h1 : l ≠ ['0'])
    (hjs : jsParseFloat (String.mk l) = some v) (hnc : ∀ c ∈ l, c ≠ ',') :
    parseFollowers (String.mk l) =
      (if l.any (fun x => x == 'M') || l.any (fun x => x == 'm') then some (v * 1000000)
       else if l.any (fun x => x == 'K') || l.any (fun x => x == 'k') then some (v * 1000)
       else some v) := by
  have hne : String.mk l ≠ "" := by
    intro he
    exact h0 (by simpa using congrArg String.toList he)
  have hne0 : String.mk l ≠ "0" := by
    intro he
    exact h1 (by simpa using congrArg String.toList he)
  rw [parseFollowers_branches l hne hne0, stripCommas_id l hnc, hjs]
  rfl

theorem headNotDigit_cons (c : Char) (t : List Char) (h : c.isDigit = false) :
    headNotDigit (c :: t) := h

theorem headNotDot_cons (c : Char) (t : List Char) (h : c ≠ '.') : headNotDot (c :: t) := h

theorem append_single_ne_zero (ip : List Char) (suf : Char) (hsuf : suf ≠ '0') :
    ip ++ [suf] ≠ ['0'] := by
  intro h
  have hm : suf ∈ ip ++ [suf] := by simp
  rw [h] at hm
  simp at hm
  exact hsuf hm

theorem dec_list_ne_zero (ip fp : List Char) (suf : Char) :
    ip ++ '.' :: (fp ++ [suf]) ≠ ['0'] := by
  intro h
  have := congrArg List.length h
  simp [List.length_append] at this
  omega

/-- Evaluation of `parseFollowers` on an integer-digit string followed by one suffix letter. -/
theorem parseFollowers_int_suffix (ip : List Char) (suf : Char) (hip : ip ≠ [])
    (h1 : ∀ c ∈ ip, c.isDigit = true) (hd : suf.isDigit = false) (hdot : suf ≠ '.')
    (hcm : suf ≠ ',') (hz : suf ≠ '0') :
    parseFollowers (String.mk (ip ++ [suf])) =
      (if (suf == 'M') || (suf == 'm') then some ((digitsVal ip : ℚ) * 1000000)
       else if (suf == 'K') || (suf == 'k') then some ((digitsVal ip : ℚ) * 1000)
       else some (digitsVal ip)) := by
  have hjs := jsParseFloat_digits ip [suf] hip h1 (headNotDigit_cons suf [] hd)
    (headNotDot_cons suf [] hdot)
  have hnc : ∀ c ∈ ip ++ [suf], c ≠ ',' := by
    intro c hc
    rcases List.mem_append.mp hc with h | h
    · exact ne_of_digit_of_not_digit c ',' (h1 c h) (by decide)
    · simp at h; subst h; exact hcm
  have hcore := parseFollowers_core (ip ++ [suf]) (digitsVal ip) (by simp)
    (append_single_ne_zero ip suf hz) hjs hnc
  have hany : ∀ c : Char, c.isDigit = false →
      (ip ++ [suf]).any (fun x => x == c) = (suf == c) := by
    intro c hcd
    rw [List.any_append,
      any_beq_eq_false ip c (fun x hx => ne_of_digit_of_not_digit x c (h1 x hx) hcd)]
    simp
  rw [hcore, hany 'M' (by decide), hany 'm' (by decide), hany 'K' (by decide),
    hany 'k' (by decide)]

/-- Evaluation of `parseFollowers` on a decimal string `ip.fp` followed by one suffix letter. -/
theorem parseFollowers_dec_suffix (ip fp : List Char) (suf : Char) (hip : ip ≠ [])
    (h1 : ∀ c ∈ ip, c.isDigit = true) (h2 : ∀ c ∈ fp, c.isDigit = true)
    (hd : suf.isDigit = false) (hcm : suf ≠ ',') :
    parseFollowers (String.mk (ip ++ '.' :: (fp ++ [suf]))) =
      (if (suf == 'M') || (suf == 'm') then some (decimalVal ip fp * 1000000)
       else if (suf == 'K') || (suf == 'k') then some (decimalVal ip fp * 1000)
       else some (decimalVal ip fp)) := by
  have hjs := jsParseFloat_decimal ip fp [suf] hip h1 h2 (headNotDigit_cons suf [] hd)
  have hnc : ∀ c ∈ ip ++ '.' :: (fp ++ [suf]), c ≠ ',' := by
    intro c hc
    simp only [List.mem_append, List.mem_cons] at hc
    rcases hc with h | h | h | h
    · exact ne_of_digit_of_not_digit c ',' (h1 c h) (by decide)
    · subst h; decide
    · exact ne_of_digit_of_not_digit c ',' (h2 c h) (by decide)
    · simp at h; subst h; exact hcm
  have hcore := parseFollowers_core (ip ++ '.' :: (fp ++ [suf])) (decimalVal ip fp) (by simp)
    (dec_list_ne_zero ip fp suf) hjs hnc
  have hany : ∀ c : Char, c.isDigit = false → c ≠ '.' →
      (ip ++ '.' :: (fp ++ [suf])).any (fun x => x == c) = (suf == c) := by
    intro c hcd hcdot
    rw [List.any_append, List.any_cons, List.any_append,
      any_beq_eq_false ip c (fun x hx => ne_of_digit_of_not_digit x c (h1 x hx) hcd),
      any_beq_eq_false fp c (fun x hx => ne_of_digit_of_not_digit x c (h2 x hx) hcd)]
    have : ('.' == c) = false := by
      rw [beq_eq_false_iff_ne]
      exact fun h => hcdot h.symm
    simp [this]
  rw [hcore, hany 'M' (by decide) (by decide), hany 'm' (by decide) (by decide),
    hany 'K' (by decide) (by decide), hany 'k' (by decide) (by decide)]

/-- Evaluation of `parseFollowers` on a plain digit string. -/
theorem parseFollowers_digits (l : List Char) (h0 : l ≠ []) (h : ∀ c ∈ l, c.isDigit = true) :
    parseFollowers (String.mk l) = some (digitsVal l) := by
  by_cases h1 : l = ['0']
  · subst h1
    have : parseFollowers (String.mk ['0']) = some 0 := by
      unfold parseFollowers
      rw [if_pos (Or.inr rfl)]
    rw [this]
    norm_num [digitsVal]
  · have hjs := jsParseFloat_digits l [] h0 h trivial trivial
    rw [List.append_nil] at hjs
    have hnc : ∀ c ∈ l, c ≠ ',' :=
      fun c hc => ne_of_digit_of_not_digit c ',' (h c hc) (by decide)
    have hcore := parseFollowers_core l (digitsVal l) h0 h1 hjs hnc
    rw [hcore,
      any_beq_eq_false l 'M' (fun x hx => ne_of_digit_of_not_digit x 'M' (h x hx) (by decide)),
      any_beq_eq_false l 'm' (fun x hx => ne_of_digit_of_not_digit x 'm' (h x hx) (by decide)),
      any_beq_eq_false l 'K' (fun x hx => ne_of_digit_of_not_digit x 'K' (h x hx) (by decide)),
      any_beq_eq_false l 'k' (fun x hx => ne_of_digit_of_not_digit x 'k' (h x hx) (by decide))]
    rfl

/-- Evaluation of `parseFollowers` on a comma-grouped digit string. -/
theorem parseFollowers_commas (l : List Char) (h : ∀ c ∈ l, c.isDigit = true ∨ c = ',')
    (hd : ∃ c ∈ l, c.isDigit = true) :
    parseFollowers (String.mk l) = some (digitsVal (l.filter Char.isDigit)) := by
  obtain ⟨w, hw, hwd⟩ := hd
  have h0 : l ≠ [] := List.ne_nil_of_mem hw
  have hflt : l.filter (fun c => c != ',') = l.filter Char.isDigit := by
    apply List.filter_congr
    intro c hc
    rcases h c hc with hcd | hcc
    · rw [hcd, bne_iff_ne]
      exact ne_of_digit_of_not_digit c ',' hcd (by decide)
    · subst hcc; decide
  by_cases h1 : l = ['0']
  · subst h1
    have : parseFollowers (String.mk ['0']) = some 0 := by
      unfold parseFollowers
      rw [if_pos (Or.inr rfl)]
    rw [this]
    have hv : digitsVal (List.filter Char.isDigit ['0']) = 0 := by decide
    rw [hv]
    norm_num
  · have hne : String.mk l ≠ "" := by
      intro he
      exact h0 (by simpa using congrArg String.toList he)
    have hne0 : String.mk l ≠ "0" := by
      intro he
      exact h1 (by simpa using congrArg String.toList he)
    have hletter : ∀ c : Char, c.isDigit = false → c ≠ ',' →
        l.any (fun x => x == c) = false := by
      intro c hcd hcne
      apply any_beq_eq_false
      intro x hx
      rcases h x hx with hxd | hxc
      · exact ne_of_digit_of_not_digit x c hxd hcd
      · subst hxc
        exact fun hcc => hcne hcc.symm
    have hfil0 : l.filter Char.isDigit ≠ [] :=
      List.ne_nil_of_mem (List.mem_filter.mpr ⟨hw, hwd⟩)
    have hfild : ∀ c ∈ l.filter Char.isDigit, c.isDigit = true :=
      fun c hc => (List.mem_filter.mp hc).2
    have hjs := jsParseFloat_digits (l.filter Char.isDigit) [] hfil0 hfild trivial trivial
    rw [List.append_nil] at hjs
    have hstrip : stripCommas (String.mk l) = String.mk (l.filter Char.isDigit) := by
      unfold stripCommas
      rw [toList_mk, hflt]
    rw [parseFollowers_branches l hne hne0, hletter 'M' (by decide) (by decide),
      hletter 'm' (by decide) (by decide), hletter 'K' (by decide) (by decide),
      hletter 'k' (by decide) (by decide), hstrip, hjs]
    rfl

/-! ### Claim C1 -/

/-- C1, amended.  The normalization used for sorting (`parseFollowers`) maps plain
integer strings to themselves and comma-grouped integer strings to the integer with
the separators removed; suffix-scaled values with `K` or `M` (case-insensitive) are
scaled by 1,000 and 1,000,000 respectively (in integer form `850K` and in decimal
form `1.2M`); a `B` suffix — claimed by the spec to scale by 1,000,000,000 — is NOT
recognized by the code, which returns the numeric prefix unscaled.  In particular
`1.2M` normalizes to 1,200,000, `850K` to 850,000 and `12,345` to 12,345. -/
theorem parseFollowers_normalization_c1 :
    (∀ l : List Char, l ≠ [] → (∀ c ∈ l, c.isDigit = true) →
        parseFollowers (String.mk l) = some (digitsVal l))
  ∧ (∀ l : List Char, (∀ c ∈ l, c.isDigit = true ∨ c = ',') →
        (∃ c ∈ l, c.isDigit = true) →
        parseFollowers (String.mk l) = some (digitsVal (l.filter Char.isDigit)))
  ∧ (∀ ip : List Char, ip ≠ [] → (∀ c ∈ ip, c.isDigit = true) →
        parseFollowers (String.mk (ip ++ ['M'])) = some ((digitsVal ip : ℚ) * 1000000)
      ∧ parseFollowers (String.mk (ip ++ ['m'])) = some ((digitsVal ip : ℚ) * 1000000)
      ∧ parseFollowers (String.mk (ip ++ ['K'])) = some ((digitsVal ip : ℚ) * 1000)
      ∧ parseFollowers (String.mk (ip ++ ['k'])) = some ((digitsVal ip : ℚ) * 1000))
  ∧ (∀ ip fp : List Char, ip ≠ [] → (∀ c ∈ ip, c.isDigit = true) →
        (∀ c ∈ fp, c.isDigit = true) →
        parseFollowers (String.mk (ip ++ '.' :: (fp ++ ['M']))) = some (decimalVal ip fp * 1000000)
      ∧ parseFollowers (String.mk (ip ++ '.' :: (fp ++ ['m']))) = some (decimalVal ip fp * 1000000)
      ∧ parseFollowers (String.mk (ip ++ '.' :: (fp ++ ['K']))) = some (decimalVal ip fp * 1000)
      ∧ parseFollowers (String.mk (ip ++ '.' :: (fp ++ ['k']))) = some (decimalVal ip fp * 1000))
  ∧ (∀ ip : List Char, ip ≠ [] → (∀ c ∈ ip, c.isDigit = true) →
        parseFollowers (String.mk (ip ++ ['B'])) = some (digitsVal ip)
      ∧ parseFollowers (String.mk (ip ++ ['b'])) = some (digitsVal ip))
  ∧ parseFollowers "1.2M" = some 1200000
  ∧ parseFollowers "850K" = some 850000
  ∧ parseFollowers "12,345" = some 12345 := by
  refine ⟨parseFollowers_digits, parseFollowers_commas, ?_, ?_, ?_, ?_, ?_, ?_⟩
  · intro ip hip h1
    refine ⟨?_, ?_, ?_, ?_⟩ <;>
      rw [parseFollowers_int_suffix ip _ hip h1 (by decide) (by decide) (by decide) (by decide)] <;>
      rfl
  · intro ip fp hip h1 h2
    refine ⟨?_, ?_, ?_, ?_⟩ <;>
      rw [parseFollowers_dec_suffix ip fp _ hip h1 h2 (by decide) (by decide)] <;>
      rfl
  · intro ip hip h1
    refine ⟨?_, ?_⟩ <;>
      rw [parseFollowers_int_suffix ip _ hip h1 (by decide) (by decide) (by decide) (by decide)] <;>
      rfl
  · have e : "1.2M" = String.mk (['1'] ++ '.' :: (['2'] ++ ['M'])) := rfl
    rw [e, parseFollowers_dec_suffix ['1'] ['2'] 'M' (by decide) (by decide) (by decide)
      (by decide) (by decide)]
    norm_num [decimalVal, show digitsVal ['1'] = 1 from by decide,
      show digitsVal ['2'] = 2 from by decide]
  · have e : "850K" = String.mk (['8', '5', '0'] ++ ['K']) := rfl
    rw [e, parseFollowers_int_suffix ['8', '5', '0'] 'K' (by decide) (by decide) (by decide)
      (by decide) (by decide) (by decide)]
    norm_num [show digitsVal ['8', '5', '0'] = 850 from by decide]
    decide
  · have e : "12,345" = String.mk ['1', '2', ',', '3', '4', '5'] := rfl
    rw [e, parseFollowers_commas ['1', '2', ',', '3', '4', '5'] (by decide) (by decide)]
    norm_num [show digitsVal (List.filter Char.isDigit ['1', '2', ',', '3', '4', '5']) = 12345
      from by decide]

/-- C1 witness: the plain-integer conjunct evaluated at the concrete string `"7"`. -/
theorem parseFollowers_normalization_c1_witness :
    parseFollowers (String.mk ['7']) = some (digitsVal ['7']) :=
  parseFollowers_normalization_c1.1 ['7'] (by decide) (by decide)

/-- C1 counterexample: the claim also asserts that a `B` suffix scales by
1,000,000,000, but the code does not recognize `B`: `"1B"` normalizes to 1,
not to 1,000,000,000. -/
theorem parseFollowers_b_unscaled_c1_cex :
    parseFollowers "1B" = some 1 ∧ ((1 : ℚ) ≠ 1000000000) := by
  constructor
  · have e : "1B" = String.mk (['1'] ++ ['B']) := rfl
    rw [e, parseFollowers_int_suffix ['1'] 'B' (by decide) (by decide) (by decide) (by decide)
      (by decide) (by decide)]
    norm_num [show digitsVal ['1'] = 1 from by decide]
    rw [if_neg (by decide), if_neg (by decide)]
  · norm_num

/-! ## Data model of the scraping pipeline

`Coin` is the shape of the records flowing from the CoinGecko route into the
Twitter route (`coinData` in src/unnamed/part_001 lines 296-332, and
`defaultCryptoData` in lines 31-50, which has no `image` field — hence
`image : Option String`).  `CryptoFollower` is the record shape pushed by
`processCryptoData` (lines 102-131) and stored/served by `/api/followers`
(the `CryptoFollower` interface of src/unnamed/part_002). -/

structure Coin where
  rank : ℚ
  name : String
  symbol : String
  twitter_handle : Option String
  twitter_url : Option String
  market_cap : ℚ
  price : ℚ
  image : Option String
deriving DecidableEq, Repr

structure CryptoFollower where
  coin_name : String
  symbol : String
  twitter_handle : Option String
  twitter_url : Option String
  followers : String
  market_cap : ℚ
  price : ℚ
  rank : ℚ
  last_updated : String
deriving DecidableEq, Repr

/-! ## Twitter follower route (src/unnamed/part_001 lines 1-156) -/

/-- The hardcoded follower table `actualTwitterFollowers` (lines 4-15). -/
def actualTwitterFollowers : List (String × String) :=
  [("https://x.com/bitcoin", "5.2M"), ("https://x.com/ethereum", "3.1M"),
   ("https://x.com/Tether_to", "1.8M"), ("https://x.com/BNBCHAIN", "2.4M"),
   ("https://x.com/solana", "1.9M"), ("https://x.com/Ripple", "3.5M"),
   ("https://x.com/dogecoin", "2.8M"), ("https://x.com/Cardano", "1.2M"),
   ("https://x.com/avax", "890K"), ("https://x.com/chainlink", "1.1M")]

/-- `actualTwitterFollowers[coin.twitter_url]` — `undefined` (here `none`) when the
url is `null` or not a key of the table. -/
def lookupFollowers : Option String → Option String
  | none => none
  | some url => (actualTwitterFollowers.find? (fun p => p.1 == url)).map (fun p => p.2)

/-- Zero-pad a numeral string on the left up to width `w`. -/
def padZeros (s : String) (w : Nat) : String :=
  String.mk (List.replicate (w - s.length) '0') ++ s

/-- JavaScript's `Number.prototype.toFixed(f)` on the nonnegative exact values this
program produces: round to `f` decimals (ties away from zero, per the ECMAScript
"pick the larger n" rule) and render with exactly `f` fraction digits. -/
def jsToFixed (q : ℚ) (f : Nat) : String :=
  let n : ℤ := ⌊q * (10 : ℚ) ^ f + 1 / 2⌋
  if f = 0 then toString n
  else toString (n / (10 : ℤ) ^ f) ++ "." ++ padZeros (toString (n % (10 : ℤ) ^ f)) f

/-- The market-cap based fallback of lines 88-99: when the url is not in the
follower table, a "realistic" follower count is generated from the market cap and
a `Math.random()` draw `r` (modelled as an explicit rational in `[0,1)`). -/
def fallbackFollowers (marketCap : ℚ) (r : ℚ) : String :=
  if marketCap > 100000000000 then jsToFixed (r * 3 + 2) 1 ++ "M"
  else if marketCap > 50000000000 then jsToFixed (r * 2 + 1) 1 ++ "M"
  else if marketCap > 10000000000 then jsToFixed (r * 900 + 500) 0 ++ "K"
  else jsToFixed (r * 500 + 100) 0 ++ "K"

/-- One iteration of the `processCryptoData` loop (lines 67-132): a coin with a
truthy `twitter_url` and `twitter_handle` is resolved against the follower table,
falling back to a generated count (consuming one random draw); any other coin is
pushed with `null` handle/url and the `"No Twitter"` marker, touching neither the
table nor the random stream. -/
def processCoin (coin : Coin) (now : String) (rs : List ℚ) : CryptoFollower × List ℚ :=
  if jsTruthy coin.twitter_url && jsTruthy coin.twitter_handle then
    match lookupFollowers coin.twitter_url with
    | some f =>
      ({ coin_name := coin.name, symbol := coin.symbol,
         twitter_handle := coin.twitter_handle, twitter_url := coin.twitter_url,
         followers := f, market_cap := coin.market_cap, price := coin.price,
         rank := coin.rank, last_updated := now }, rs)
    | none =>
      ({ coin_name := coin.name, symbol := coin.symbol,
         twitter_handle := coin.twitter_handle, twitter_url := coin.twitter_url,
         followers := fallbackFollowers coin.market_cap (rs.headD 0),
         market_cap := coin.market_cap, price := coin.price,
         rank := coin.rank, last_updated := now }, rs.tail)
  else
    ({ coin_name := coin.name, symbol := coin.symbol,
       twitter_handle := none, twitter_url := none,
       followers := "No Twitter", market_cap := coin.market_cap, price := coin.price,
       rank := coin.rank, last_updated := now }, rs)

/-- The full `processCryptoData` loop over the input records, threading the
random-draw stream. -/
def processCryptoData : List Coin → String → List ℚ → List CryptoFollower
  | [], _, _ => []
  | coin :: rest, now, rs =>
    (processCoin coin now rs).1 :: processCryptoData rest now (processCoin coin now rs).2

/-- The success response of the Twitter route (lines 148-155); the constant
`message`/`method` strings and the timestamp are irrelevant to every claim and
omitted. -/
structure ScrapeTwitterResponse where
  success : Bool
  scraped : Nat
  data : List CryptoFollower
deriving DecidableEq, Repr

def scrapeTwitterResponseOf (scrapedData : List CryptoFollower) : ScrapeTwitterResponse :=
  { success := true, scraped := scrapedData.length, data := scrapedData }

/-- `defaultCryptoData` (lines 31-50): the two-record Bitcoin/Ethereum dataset used
when no Twitter urls are passed. -/
def defaultCryptoData : List Coin :=
  [{ rank := 1, name := "Bitcoin", symbol := "BTC", twitter_handle := some "bitcoin",
     twitter_url := some "https://x.com/bitcoin", market_cap := 1280000000000,
     price := 65432.21, image := none },
   { rank := 2, name := "Ethereum", symbol := "ETH", twitter_handle := some "ethereum",
     twitter_url := some "https://x.com/ethereum", market_cap := 425000000000,
     price := 3542.18, image := none }]

/-- The POST handler of the Twitter route (lines 17-61): body fields default to
`[]` via `|| []`; an empty `twitterUrls` array routes to `defaultCryptoData`,
ignoring any supplied `cryptoData`. -/
def scrapeTwitterPOST (bodyCryptoData : Option (List Coin))
    (bodyTwitterUrls : Option (List String)) (now : String) (rs : List ℚ) :
    ScrapeTwitterResponse :=
  let cryptoData := bodyCryptoData.getD []
  let twitterAccounts := bodyTwitterUrls.getD []
  if twitterAccounts.length = 0 then
    scrapeTwitterResponseOf (processCryptoData defaultCryptoData now rs)
  else
    scrapeTwitterResponseOf (processCryptoData cryptoData now rs)

/-! ## CoinGecko listing route (src/unnamed/part_001 lines 159-360) -/

/-- One entry of the hardcoded `coinGeckoData` table (lines 164-275).  The
`twitter_pattern` field — an HTML snippet used only in a console log — is omitted. -/
structure GeckoCoin where
  rank : ℚ
  name : String
  symbol : String
  slug : String
  coingecko_url : String
  twitter_handle : Option String
  market_cap : ℚ
  price : ℚ
deriving DecidableEq, Repr

def coinGeckoData : List GeckoCoin :=
  [{ rank := 1, name := "Bitcoin", symbol := "BTC", slug := "bitcoin",
     coingecko_url := "https://www.coingecko.com/en/coins/bitcoin",
     twitter_handle := some "bitcoin", market_cap := 1280000000000, price := 65432.21 },
   { rank := 2, name := "Ethereum", symbol := "ETH", slug := "ethereum",
     coingecko_url := "https://www.coingecko.com/en/coins/ethereum",
     twitter_handle := some "ethereum", market_cap := 425000000000, price := 3542.18 },
   { rank := 3, name := "Tether USDt", symbol := "USDT", slug := "tether",
     coingecko_url := "https://www.coingecko.com/en/coins/tether",
     twitter_handle := some "Tether_to", market_cap := 125000000000, price := 1.0 },
   { rank := 4, name := "BNB", symbol := "BNB", slug := "binancecoin",
     coingecko_url := "https://www.coingecko.com/en/coins/binancecoin",
     twitter_handle := some "BNBCHAIN", market_cap := 98000000000, price := 672.45 },
   { rank := 5, name := "Solana", symbol := "SOL", slug := "solana",
     coingecko_url := "https://www.coingecko.com/en/coins/solana",
     twitter_handle := some "solana", market_cap := 89000000000, price := 195.67 },
   { rank := 6, name := "XRP", symbol := "XRP", slug := "ripple",
     coingecko_url := "https://www.coingecko.com/en/coins/ripple",
     twitter_handle := some "Ripple", market_cap := 78000000000, price := 1.38 },
   { rank := 7, name := "Dogecoin", symbol := "DOGE", slug := "dogecoin",
     coingecko_url := "https://www.coingecko.com/en/coins/dogecoin",
     twitter_handle := some "dogecoin", market_cap := 58000000000, price := 0.39 },
   { rank := 8, name := "Cardano", symbol := "ADA", slug := "cardano",
     coingecko_url := "https://www.coingecko.com/en/coins/cardano",
     twitter_handle := some "Cardano", market_cap := 47000000000, price := 1.32 },
   { rank := 9, name := "Avalanche", symbol := "AVAX", slug := "avalanche-2",
     coingecko_url := "https://www.coingecko.com/en/coins/avalanche-2",
     twitter_handle := some "avax", market_cap := 38000000000, price := 98.45 },
   { rank := 10, name := "Chainlink", symbol := "LINK", slug := "chainlink",
     coingecko_url := "https://www.coingecko.com/en/coins/chainlink",
     twitter_handle := some "chainlink", market_cap := 34000000000, price := 23.78 }]

/-- `https://assets.coingecko.com/coins/images/${coin.rank * 100}/large/${coin.slug}.png` -/
def imageUrl (rank : ℚ) (slug : String) : String :=
  "https://assets.coingecko.com/coins/images/" ++ toString (rank * 100)
    ++ "/large/" ++ slug ++ ".png"

/-- One iteration of the CoinGecko loop (lines 285-332): a truthy handle yields a
`Coin` record plus the derived `https://x.com/<handle>` url pushed onto
`twitterAccounts`; otherwise the coin is pushed with `null` handle/url. -/
def geckoEntry (c : GeckoCoin) : Coin × Option String :=
  if jsTruthy c.twitter_handle then
    let h := c.twitter_handle.getD ""
    let url := "https://x.com/" ++ h
    ({ rank := c.rank, name := c.name, symbol := c.symbol,
       twitter_handle := c.twitter_handle, twitter_url := some url,
       market_cap := c.market_cap, price := c.price,
       image := some (imageUrl c.rank c.slug) }, some url)
  else
    ({ rank := c.rank, name := c.name, symbol := c.symbol,
       twitter_handle := none, twitter_url := none,
       market_cap := c.market_cap, price := c.price, image := some "" }, none)

/-- The success response of the CoinGecko route (lines 346-355); constant
`message`/`pattern_used` strings and the timestamp omitted. -/
structure CoingeckoResponse where
  success : Bool
  totalCoins : Nat
  twitterAccounts : Nat
  coinData : List Coin
  twitterUrls : List String
deriving DecidableEq, Repr

/-- The POST handler of the CoinGecko route: it takes no input and processes the
hardcoded table unconditionally. -/
def coingeckoPOST : CoingeckoResponse :=
  let entries := coinGeckoData.map geckoEntry
  let coinData := entries.map (fun e => e.1)
  let urls := entries.filterMap (fun e => e.2)
  { success := true, totalCoins := coinData.length, twitterAccounts := urls.length,
    coinData := coinData, twitterUrls := urls }

/-! ## Result store route `/api/followers` (src/unnamed/part_002) -/

/-- The `sampleData` seed snapshot (lines 16-105); `now` stands for the
`new Date().toISOString()` evaluated when the module loads. -/
def sampleData (now : String) : List CryptoFollower :=
  [{ coin_name := "Bitcoin", symbol := "BTC", twitter_handle := some "bitcoin",
     twitter_url := some "https://x.com/bitcoin", followers := "5.2M",
     market_cap := 1280000000000, price := 65432.21, rank := 1, last_updated := now },
   { coin_name := "Ethereum", symbol := "ETH", twitter_handle := some "ethereum",
     twitter_url := some "https://x.com/ethereum", followers := "3.1M",
     market_cap := 425000000000, price := 3542.18, rank := 2, last_updated := now },
   { coin_name := "Tether USDt", symbol := "USDT", twitter_handle := some "Tether_to",
     twitter_url := some "https://x.com/Tether_to", followers := "1.8M",
     market_cap := 125000000000, price := 1.0, rank := 3, last_updated := now },
   { coin_name := "BNB", symbol := "BNB", twitter_handle := some "BNBCHAIN",
     twitter_url := some "https://x.com/BNBCHAIN", followers := "2.4M",
     market_cap := 98000000000, price := 672.45, rank := 4, last_updated := now },
   { coin_name := "Solana", symbol := "SOL", twitter_handle := some "solana",
     twitter_url := some "https://x.com/solana", followers := "1.9M",
     market_cap := 89000000000, price := 195.67, rank := 5, last_updated := now },
   { coin_name := "XRP", symbol := "XRP", twitter_handle := some "Ripple",
     twitter_url := some "https://x.com/Ripple", followers := "3.5M",
     market_cap := 78000000000, price := 1.38, rank := 6, last_updated := now },
   { coin_name := "Dogecoin", symbol := "DOGE", twitter_handle := some "dogecoin",
     twitter_url := some "https://x.com/dogecoin", followers := "2.8M",
     market_cap := 58000000000, price := 0.39, rank := 7, last_updated := now },
   { coin_name := "Cardano", symbol := "ADA", twitter_handle := some "Cardano",
     twitter_url := some "https://x.com/Cardano", followers := "1.2M",
     market_cap := 47000000000, price := 1.32, rank := 8, last_updated := now }]

/-- The possible shapes of `body.data` in a parsed `POST /api/followers` payload:
missing, present but not an array (with its JavaScript truthiness), or an array.
The guard `body.data && Array.isArray(body.data)` holds exactly for arrays, since
every array (including `[]`) is truthy. -/
inductive BodyData where
  | absent
  | nonArray (truthy : Bool)
  | array (l : List CryptoFollower)
deriving DecidableEq, Repr

inductive StorePostResponse where
  | ok (count : Nat)
  | err
deriving DecidableEq, Repr

/-- The GET handler (lines 110-119): the stored data when nonempty, else the seed. -/
def followersGET (state : List CryptoFollower) (now : String) : List CryptoFollower :=
  if state.length > 0 then state else sampleData now

/-- The POST handler (lines 121-140): `none` is a body on which `request.json()`
throws (500 response); otherwise the store is replaced iff `body.data` is an
array, and the response carries `scrapedCryptoData.length` read after the
conditional assignment. -/
def followersPOST (state : List CryptoFollower) (body : Option BodyData) :
    List CryptoFollower × StorePostResponse :=
  match body with
  | none => (state, StorePostResponse.err)
  | some bd =>
    match bd with
    | BodyData.array l => (l, StorePostResponse.ok l.length)
    | _ => (state, StorePostResponse.ok state.length)

/-! ## Dashboard run trigger (src/app/page.tsx lines 52-122 and 219-222)

The `Get Real Data` button is rendered with `disabled={scraping}`, so a click
event while a run is in flight is a DOM no-op: `runFullScraper` is not invoked,
nothing is fetched, and no response of any kind is produced.  When the button is
enabled, the synchronous prefix of `runFullScraper` sets `scraping`,
`scrapingStep` and `scrapingStatus` and starts the run.  `ClickResult.busy` is
the busy-rejection signal the spec postulates; the code never produces it. -/

inductive ScrapingStep where
  | idle
  | coingecko
  | twitter
  | complete
deriving DecidableEq, Repr

structure DashboardState where
  scraping : Bool
  scrapingStep : ScrapingStep
  scrapingStatus : String
  resultStore : List CryptoFollower
deriving DecidableEq, Repr

inductive ClickResult where
  | noAction
  | runStarted
  | busy
deriving DecidableEq, Repr

def clickRunFullScraper (s : DashboardState) : DashboardState × ClickResult :=
  if s.scraping then (s, ClickResult.noAction)
  else
    ({ s with
        scraping := true
        scrapingStep := ScrapingStep.coingecko
        scrapingStatus := "🚀 Starting CoinGecko scraper..." },
     ClickResult.runStarted)

/-- A string that renders a (nonnegative) integer in decimal, the only way an
integer follower count could appear in the JSON the store serves. -/
def isIntString (s : String) : Bool :=
  !(s = "") && s.toList.all Char.isDigit

/-! ### Helper lemmas about the pipeline -/

theorem processCoin_rank (c : Coin) (now : String) (rs : List ℚ) :
    ((processCoin c now rs).1).rank = c.rank := by
  unfold processCoin
  split
  · split <;> rfl
  · rfl

theorem processCryptoData_map_rank (coins : List Coin) (now : String) (rs : List ℚ) :
    (processCryptoData coins now rs).map CryptoFollower.rank = coins.map Coin.rank := by
  induction coins generalizing rs with
  | nil => rfl
  | cons c cs ih => simp [processCryptoData, processCoin_rank, ih]

theorem processCryptoData_length (coins : List Coin) (now : String) (rs : List ℚ) :
    (processCryptoData coins now rs).length = coins.length := by
  induction coins generalizing rs with
  | nil => rfl
  | cons c cs ih => simp [processCryptoData, ih]

/-! ### Claim C3 -/

/-- C3, confirmed.  A `ListingRecord` with no (truthy) social handle never reaches
the follower-resolution code: its output record is built directly with `null`
handle and profile fields and the `"No Twitter"` marker, the random stream is not
consumed (the fallback resolver is never invoked), and the record is merged into
the result set — one output per input, so the run is never aborted. -/
theorem noHandleMerge_c3 :
    (∀ (coin : Coin) (now : String) (rs : List ℚ), jsTruthy coin.twitter_handle = false →
        processCoin coin now rs =
          ({ coin_name := coin.name, symbol := coin.symbol, twitter_handle := none,
             twitter_url := none, followers := "No Twitter", market_cap := coin.market_cap,
             price := coin.price, rank := coin.rank, last_updated := now }, rs))
  ∧ (∀ (coins : List Coin) (now : String) (rs : List ℚ),
        (processCryptoData coins now rs).length = coins.length) := by
  constructor
  · intro coin now rs h
    unfold processCoin
    rw [h]
    simp
  · exact processCryptoData_length

/-- C3 witness: a concrete handle-less coin is merged with the no-handle marker. -/
theorem noHandleMerge_c3_witness :
    processCoin
      { rank := 5, name := "NoSocial", symbol := "NSC", twitter_handle := none,
        twitter_url := none, market_cap := 7, price := 2, image := none } "t" []
      = ({ coin_name := "NoSocial", symbol := "NSC", twitter_handle := none,
           twitter_url := none, followers := "No Twitter", market_cap := 7, price := 2,
           rank := 5, last_updated := "t" }, []) :=
  noHandleMerge_c3.1
    { rank := 5, name := "NoSocial", symbol := "NSC", twitter_handle := none,
      twitter_url := none, market_cap := 7, price := 2, image := none } "t" [] rfl

/-! ### Claim C4 -/

/-- C4, confirmed.  Merging preserves ranks exactly: the merged set carries the
same rank sequence as the Listing Resolver's records (for every input, in order),
committing stores the set verbatim, and on the concrete listing the committed rank
sequence is `[1, …, 10]` — a subset of the resolver's ranks with no duplicates and
contiguous (each rank is its predecessor plus one). -/
theorem ranksPreserved_c4 :
    (∀ (coins : List Coin) (now : String) (rs : List ℚ),
        (processCryptoData coins now rs).map CryptoFollower.rank = coins.map Coin.rank)
  ∧ (∀ (s l : List CryptoFollower), (followersPOST s (some (BodyData.array l))).1 = l)
  ∧ coingeckoPOST.coinData.map Coin.rank = [1, 2, 3, 4, 5, 6, 7, 8, 9, 10]
  ∧ (∀ (now : String) (rs : List ℚ),
        ((processCryptoData coingeckoPOST.coinData now rs).map CryptoFollower.rank
          ⊆ coingeckoPOST.coinData.map Coin.rank)
      ∧ ((processCryptoData coingeckoPOST.coinData now rs).map CryptoFollower.rank).Nodup
      ∧ List.Chain' (fun a b => b = a + 1)
          ((processCryptoData coingeckoPOST.coinData now rs).map CryptoFollower.rank)) := by
  have h3 : coingeckoPOST.coinData.map Coin.rank = [1, 2, 3, 4, 5, 6, 7, 8, 9, 10] := by decide
  refine ⟨processCryptoData_map_rank, fun s l => rfl, h3, ?_⟩
  intro now rs
  rw [processCryptoData_map_rank, h3]
  refine ⟨fun a ha => ha, by decide, ?_⟩
  norm_num [List.chain'_cons]

/-! ### Claims C5, C7, C10 (the result store) -/

/-- C5 counterexample: seed fallback is keyed on emptiness at read time, not on
"no run has ever committed".  After a nonempty commit followed by a commit of the
empty set, the most recently committed dataset is `[]`, yet `GET` returns the seed
sample snapshot — not that dataset. -/
theorem resultStore_seed_on_empty_c5_cex :
    (followersPOST
        ((followersPOST [] (some (BodyData.array
          [{ coin_name := "X", symbol := "X", twitter_handle := none, twitter_url := none,
             followers := "1", market_cap := 0, price := 0, rank := 1,
             last_updated := "t" }]))).1)
        (some (BodyData.array []))).2 = StorePostResponse.ok 0
  ∧ followersGET
      ((followersPOST
          ((followersPOST [] (some (BodyData.array
            [{ coin_name := "X", symbol := "X", twitter_handle := none, twitter_url := none,
               followers := "1", market_cap := 0, price := 0, rank := 1,
               last_updated := "t" }]))).1)
          (some (BodyData.array []))).1) "t" = sampleData "t"
  ∧ sampleData "t" ≠ [] := by
  refine ⟨rfl, rfl, ?_⟩
  intro h
  exact List.noConfusion h

/-- C5, amended.  `get()` returns the seed sample snapshot whenever the stored
dataset is empty at read time — both when no run has ever committed (initial
state `[]`) and when the most recent commit stored the empty set — and otherwise
returns the most recently committed dataset unchanged. -/
theorem resultStore_get_amended_c5 :
    (∀ now : String, followersGET [] now = sampleData now)
  ∧ (∀ (s d : List CryptoFollower) (now : String),
        followersGET ((followersPOST s (some (BodyData.array d))).1) now
          = if d.isEmpty then sampleData now else d) := by
  refine ⟨fun now => rfl, ?_⟩
  intro s d now
  cases d with
  | nil => rfl
  | cons r t =>
    show followersGET (r :: t) now = _
    unfold followersGET
    simp

/-- C7, confirmed.  The ingestion POST replaces the snapshot iff the payload is
well-formed (its `data` field is an array — note `[]` is truthy in JavaScript, so
the `body.data && Array.isArray(body.data)` guard holds exactly for arrays); the
response carries the record count after the conditional store; a malformed payload
(missing `data`, non-array `data`, or a body on which `json()` throws) leaves the
snapshot unchanged. -/
theorem followersPOST_wellformed_c7 :
    (∀ (s l : List CryptoFollower),
        followersPOST s (some (BodyData.array l)) = (l, StorePostResponse.ok l.length))
  ∧ (∀ (s : List CryptoFollower) (t : Bool),
        followersPOST s (some (BodyData.nonArray t)) = (s, StorePostResponse.ok s.length))
  ∧ (∀ s : List CryptoFollower,
        followersPOST s (some BodyData.absent) = (s, StorePostResponse.ok s.length))
  ∧ (∀ s : List CryptoFollower, followersPOST s none = (s, StorePostResponse.err)) :=
  ⟨fun _ _ => rfl, fun _ _ => rfl, fun _ => rfl, fun _ => rfl⟩

/-- C10, confirmed.  Committing the empty array succeeds (response `ok 0`) and a
subsequent `GET` serves the seed sample dataset again, regardless of what was
stored before; committing a nonempty dataset makes `GET` serve it — the fallback
is decided by emptiness at read time, not by whether a commit ever occurred. -/
theorem emptyCommit_seed_c10 :
    ∀ (s : List CryptoFollower) (now : String),
      (followersPOST s (some (BodyData.array []))).2 = StorePostResponse.ok 0
      ∧ followersGET ((followersPOST s (some (BodyData.array []))).1) now = sampleData now
      ∧ ∀ (r : CryptoFollower) (d : List CryptoFollower),
          followersGET ((followersPOST s (some (BodyData.array (r :: d)))).1) now = r :: d := by
  intro s now
  refine ⟨rfl, rfl, ?_⟩
  intro r d
  show followersGET (r :: d) now = r :: d
  unfold followersGET
  simp

/-! ### Claim C2 -/

/-- C2: the code violates the claim (and the spec's own design-note flags this as a
placeholder that "must not be carried into a real implementation").  For a coin
whose handle and url are truthy but whose url is not in the follower table —
resolution failure — the code does not produce an unresolved marker: it fabricates
a follower count from the market cap and a random draw.  At the failing input
below (market cap 0, draw 0) the fabricated count is `"100K"`, which the
dashboard's own parser reads as 100,000 followers, indistinguishable from a
genuinely resolved count; one random draw is consumed. -/
theorem fabricatedFallback_c2 :
    processCoin
      { rank := 3, name := "Alpha", symbol := "ALP", twitter_handle := some "alpha",
        twitter_url := some "https://x.com/alpha", market_cap := 0, price := 1,
        image := none } "t" [0]
      = ({ coin_name := "Alpha", symbol := "ALP", twitter_handle := some "alpha",
           twitter_url := some "https://x.com/alpha", followers := "100K",
           market_cap := 0, price := 1, rank := 3, last_updated := "t" }, [])
  ∧ parseFollowers "100K" = some 100000
  ∧ lookupFollowers (some "https://x.com/alpha") = none := by
  have hfb : fallbackFollowers 0 0 = "100K" := by
    unfold fallbackFollowers
    rw [if_neg (by norm_num), if_neg (by norm_num), if_neg (by norm_num)]
    have h1 : (0 : ℚ) * 500 + 100 = 100 := by norm_num
    rw [h1]
    have h2 : jsToFixed 100 0 = "100" := by
      unfold jsToFixed
      rw [if_pos rfl]
      have h3 : (⌊(100 : ℚ) * (10 : ℚ) ^ (0 : ℕ) + 1 / 2⌋ : ℤ) = 100 := by norm_num
      rw [h3]
      decide
    rw [h2]
    rfl
  refine ⟨?_, ?_, by decide⟩
  · show (({ coin_name := "Alpha", symbol := "ALP", twitter_handle := some "alpha",
             twitter_url := some "https://x.com/alpha", followers := fallbackFollowers 0 0,
             market_cap := 0, price := 1, rank := 3, last_updated := "t" } : CryptoFollower),
          ([] : List ℚ)) = _
    rw [hfb]
  · have e : "100K" = String.mk (['1', '0', '0'] ++ ['K']) := rfl
    rw [e, parseFollowers_int_suffix ['1', '0', '0'] 'K' (by decide) (by decide) (by decide)
      (by decide) (by decide) (by decide)]
    rw [if_neg (by decide), if_pos (by decide)]
    norm_num [show digitsVal ['1', '0', '0'] = 100 from by decide]

/-! ### Claim C6 -/

/-- C6 counterexample: a run trigger received while a run is active produces no
busy signal — the disabled run button makes the click a no-op, so the outcome is
`noAction`, not the `busy` rejection the claim asserts. -/
theorem noBusySignal_c6_cex :
    clickRunFullScraper
      { scraping := true, scrapingStep := ScrapingStep.twitter,
        scrapingStatus := "🐦 Starting Twitter follower scraper...", resultStore := [] }
      = ({ scraping := true, scrapingStep := ScrapingStep.twitter,
           scrapingStatus := "🐦 Starting Twitter follower scraper...", resultStore := [] },
         ClickResult.noAction)
  ∧ ClickResult.noAction ≠ ClickResult.busy := by
  refine ⟨rfl, ?_⟩
  intro h
  exact ClickResult.noConfusion h

/-- C6, amended.  A run trigger received while a run is active (`scraping` set,
covering both the listing and the resolution step) is simply dropped: the disabled
button makes the click a no-op, so it is not queued or interleaved and alters
neither the dashboard run state nor the result store — but no "busy" signal is
returned, because neither the dashboard nor any server route implements one (the
listing route accepts every POST unconditionally). -/
theorem busyDropped_c6 :
    (∀ s : DashboardState, s.scraping = true →
        clickRunFullScraper s = (s, ClickResult.noAction))
  ∧ coingeckoPOST.success = true := by
  refine ⟨?_, rfl⟩
  intro s h
  unfold clickRunFullScraper
  rw [h]
  simp

/-- C6 witness: the amended theorem evaluated at a concrete mid-run state. -/
theorem busyDropped_c6_witness :
    clickRunFullScraper
      { scraping := true, scrapingStep := ScrapingStep.coingecko,
        scrapingStatus := "🚀 Starting CoinGecko scraper...", resultStore := [] }
      = ({ scraping := true, scrapingStep := ScrapingStep.coingecko,
           scrapingStatus := "🚀 Starting CoinGecko scraper...", resultStore := [] },
         ClickResult.noAction) :=
  busyDropped_c6.1
    { scraping := true, scrapingStep := ScrapingStep.coingecko,
      scrapingStatus := "🚀 Starting CoinGecko scraper...", resultStore := [] } rfl

/-! ### Claim C8 -/

/-- Record A of the spec's end-to-end scenario, adapted to the only handles the
code can actually resolve: a coin whose url is in the follower table. -/
def scenarioCoinA : Coin :=
  { rank := 1, name := "Bitcoin", symbol := "BTC", twitter_handle := some "bitcoin",
    twitter_url := some "https://x.com/bitcoin", market_cap := 1280000000000,
    price := 65432.21, image := none }

/-- Record B of the spec's end-to-end scenario: no social handle. -/
def scenarioCoinB : Coin :=
  { rank := 2, name := "NoHandleCoin", symbol := "NHC", twitter_handle := none,
    twitter_url := none, market_cap := 1000, price := 1, image := none }

/-- C8 counterexample: follower counts are never served as nullable integers.  In
the two-record scenario the resolved record carries the display string `"5.2M"`
(not the integer 5,200,000) and the no-handle record carries the marker string
`"No Twitter"` (not `null`); both fail to be decimal-integer renderings, and the
committed set is served verbatim in this shape. -/
theorem stringFollowers_c8_cex :
    ((processCryptoData [scenarioCoinA, scenarioCoinB] "t" []).map (fun r => r.followers)
        = ["5.2M", "No Twitter"])
  ∧ isIntString "5.2M" = false
  ∧ isIntString "No Twitter" = false
  ∧ ((processCryptoData [scenarioCoinA, scenarioCoinB] "t" []).map (fun r => r.twitter_handle)
        = [some "bitcoin", none])
  ∧ followersGET
      ((followersPOST [] (some (BodyData.array
          (processCryptoData [scenarioCoinA, scenarioCoinB] "t" [])))).1) "t"
      = processCryptoData [scenarioCoinA, scenarioCoinB] "t" [] :=
  ⟨rfl, by decide, by decide, rfl, rfl⟩

/-- C8, amended.  Every record served by the results endpoint carries its follower
count as a display string, not a nullable integer: a resolved handle keeps its
scraped suffix form and a record without a handle carries `null` handle fields and
the `"No Twitter"` marker string.  For the two-record scenario (A resolving via
the follower table to `"5.2M"`, B without a handle) the merged output is the two
records below, and committing then reading serves exactly that set. -/
theorem mergedScenario_c8 :
    ∀ (now : String) (rs : List ℚ) (s : List CryptoFollower),
      processCryptoData [scenarioCoinA, scenarioCoinB] now rs =
        [{ coin_name := "Bitcoin", symbol := "BTC", twitter_handle := some "bitcoin",
           twitter_url := some "https://x.com/bitcoin", followers := "5.2M",
           market_cap := 1280000000000, price := 65432.21, rank := 1, last_updated := now },
         { coin_name := "NoHandleCoin", symbol := "NHC", twitter_handle := none,
           twitter_url := none, followers := "No Twitter", market_cap := 1000, price := 1,
           rank := 2, last_updated := now }]
      ∧ followersGET ((followersPOST s (some (BodyData.array
            (processCryptoData [scenarioCoinA, scenarioCoinB] now rs)))).1) now
          = processCryptoData [scenarioCoinA, scenarioCoinB] now rs :=
  fun _ _ _ => ⟨rfl, rfl⟩

/-! ### Claim C9 -/

/-- C9, confirmed.  A follower-resolution POST whose `twitterUrls` is missing or
empty ignores any supplied `cryptoData` entirely and processes the fixed
Bitcoin/Ethereum default dataset instead, returning a success response with those
two merged records (both urls are in the follower table, so no random draw is
consumed). -/
theorem emptyUrlsDefault_c9 :
    ∀ (cd : Option (List Coin)) (tu : Option (List String)) (now : String) (rs : List ℚ),
      (tu.getD []).length = 0 →
      scrapeTwitterPOST cd tu now rs =
        { success := true, scraped := 2,
          data :=
            [{ coin_name := "Bitcoin", symbol := "BTC", twitter_handle := some "bitcoin",
               twitter_url := some "https://x.com/bitcoin", followers := "5.2M",
               market_cap := 1280000000000, price := 65432.21, rank := 1,
               last_updated := now },
             { coin_name := "Ethereum", symbol := "ETH", twitter_handle := some "ethereum",
               twitter_url := some "https://x.com/ethereum", followers := "3.1M",
               market_cap := 425000000000, price := 3542.18, rank := 2,
               last_updated := now }] } := by
  intro cd tu now rs h
  unfold scrapeTwitterPOST
  rw [if_pos h]
  rfl

/-- C9 witness: supplied `cryptoData` is ignored when `twitterUrls` is missing. -/
theorem emptyUrlsDefault_c9_witness :
    scrapeTwitterPOST
      (some [{ rank := 9, name := "Ignored", symbol := "IGN", twitter_handle := none,
               twitter_url := none, market_cap := 1, price := 1, image := none }])
      none "T" []
      = { success := true, scraped := 2,
          data :=
            [{ coin_name := "Bitcoin", symbol := "BTC", twitter_handle := some "bitcoin",
               twitter_url := some "https://x.com/bitcoin", followers := "5.2M",
               market_cap := 1280000000000, price := 65432.21, rank := 1,
               last_updated := "T" },
             { coin_name := "Ethereum", symbol := "ETH", twitter_handle := some "ethereum",
               twitter_url := some "https://x.com/ethereum", followers := "3.1M",
               market_cap := 425000000000, price := 3542.18, rank := 2,
               last_updated := "T" }] } :=
  emptyUrlsDefault_c9
    (some [{ rank := 9, name := "Ignored", symbol := "IGN", twitter_handle := none,
             twitter_url := none, market_cap := 1, price := 1, image := none }])
    none "T" [] rfl

end CoinHealth
